import Mathlib

/-!
Shallow embedding of the backup-service core (`BackupService` in
`src/backup/backup.service.ts`, together with the collaborators
`DatabaseService` and `S3Service` it drives).

The embedding keeps the source's structure:
  * the Prisma `backupLog` table becomes a `List BackupLog` ledger;
  * the S3 bucket becomes a list of stored keys;
  * the local `/tmp/backups` directory becomes a list of file paths;
  * each fallible external call (pg dump, S3 put/get/delete, pg restore)
    is given its outcome as an explicit parameter, so an operation is a
    pure function from the pre-state and the collaborators' outcomes to
    the post-state and an `Except` result (a thrown JS error becomes
    `Except.error`).
Timestamps are integer milliseconds since the epoch, as in JS `Date`.
-/

/-- `BackupType` enum from the Prisma client. -/
inductive BackupType
  | DAILY
  | WEEKLY
  | MONTHLY
  | MANUAL
deriving DecidableEq, Repr

/-- `BackupStatus` enum from the Prisma client. -/
inductive BackupStatus
  | IN_PROGRESS
  | COMPLETED
  | FAILED
  | DELETED
deriving DecidableEq, Repr

/-- `type.toLowerCase()` as used to build the S3 key prefix. -/
def BackupType.toLower : BackupType → String
  | .DAILY => "daily"
  | .WEEKLY => "weekly"
  | .MONTHLY => "monthly"
  | .MANUAL => "manual"

/-- String interpolation of a `BackupStatus` value, as in the error message
`Cannot restore from backup with status: ${backup.status}`. -/
def BackupStatus.toName : BackupStatus → String
  | .IN_PROGRESS => "IN_PROGRESS"
  | .COMPLETED => "COMPLETED"
  | .FAILED => "FAILED"
  | .DELETED => "DELETED"

/-- One row of the `backupLog` table. -/
structure BackupLog where
  id : Nat
  fileName : String
  s3Key : String
  type : BackupType
  status : BackupStatus
  size : Option Int
  errorMessage : Option String
  startedAt : Int
  completedAt : Option Int
deriving DecidableEq, Repr

/-- The durable and local state the service manipulates: the ledger
(`backupLog` rows), the set of keys present in the S3 bucket, and the set
of files present under `/tmp/backups`. -/
structure SysState where
  ledger : List BackupLog
  storage : List String
  localFiles : List String
deriving DecidableEq, Repr

/-- Outcome of `DatabaseService.createBackup` (the pg dump step): either a
dump of `size` bytes, or a failure with the underlying error message. -/
inductive DumpOutcome
  | ok (size : Int)
  | fail (msg : String)
deriving DecidableEq, Repr

/-- Outcome of a single fallible collaborator call (S3 put/get/delete, or
the pg-restore invocation). -/
inductive CallOutcome
  | ok
  | fail (msg : String)
deriving DecidableEq, Repr

/-- The error a service method can throw, one constructor per distinct
throw site reachable from the embedded methods. -/
inductive BackupError
  | notFound (id : Nat)
  | invalidState (msg : String)
  | executorError (msg : String)
  | storageError (msg : String)
deriving DecidableEq, Repr

/-- `prisma.backupLog.findUnique({ where: { id } })`. -/
def lookupLog (ledger : List BackupLog) (id : Nat) : Option BackupLog :=
  ledger.find? (fun b => b.id == id)

/-- `prisma.backupLog.update({ where: { id }, data })`: rewrite the row
with the matching id, leave every other row alone. -/
def updateLog (ledger : List BackupLog) (id : Nat) (f : BackupLog → BackupLog) :
    List BackupLog :=
  ledger.map (fun b => if b.id == id then f b else b)

/-! ### Timestamp formatting

`createBackup` derives the file name from
`new Date().toISOString().replace(/[:.]/g, '-').slice(0, -5)`.
`toISOString` is modelled at character-list level with fixed-width
zero-padded decimal fields; the civil date comes from the standard
days-to-civil conversion on the day count since 1970-01-01. -/

/-- The decimal digit character for `n` in `0..9`. -/
def digitChar (n : Int) : Char := Char.ofNat (48 + n.toNat)

/-- Two-digit zero-padded decimal field. -/
def pad2Chars (n : Int) : List Char :=
  [digitChar ((n.ediv 10).emod 10), digitChar (n.emod 10)]

/-- Three-digit zero-padded decimal field (the milliseconds). -/
def pad3Chars (n : Int) : List Char :=
  [digitChar ((n.ediv 100).emod 10), digitChar ((n.ediv 10).emod 10), digitChar (n.emod 10)]

/-- Four-digit zero-padded decimal field (the year). -/
def pad4Chars (n : Int) : List Char :=
  [digitChar ((n.ediv 1000).emod 10), digitChar ((n.ediv 100).emod 10),
   digitChar ((n.ediv 10).emod 10), digitChar (n.emod 10)]

/-- Civil `(year, month, day)` from a count of days since 1970-01-01. -/
def civilFromDays (z0 : Int) : Int × Int × Int :=
  let z := z0 + 719468
  let era := z.ediv 146097
  let doe := z.emod 146097
  let yoe := (doe - doe.ediv 1460 + doe.ediv 36524 - doe.ediv 146096).ediv 365
  let y := yoe + era * 400
  let doy := doe - (365 * yoe + yoe.ediv 4 - yoe.ediv 100)
  let mp := (5 * doy + 2).ediv 153
  let d := doy - (153 * mp + 2).ediv 5 + 1
  let m := mp + (if mp < 10 then 3 else -9)
  (if m ≤ 2 then y + 1 else y, m, d)

/-- The characters of the ISO string up to whole seconds,
`YYYY-MM-DDTHH:mm:ss`, from a count of seconds since the epoch. -/
def secondsChars (s : Int) : List Char :=
  let days := s.ediv 86400
  let secOfDay := s.emod 86400
  let ymd := civilFromDays days
  pad4Chars ymd.1 ++ '-' :: pad2Chars ymd.2.1 ++ '-' :: pad2Chars ymd.2.2 ++
    'T' :: pad2Chars (secOfDay.ediv 3600) ++ ':' :: pad2Chars ((secOfDay.ediv 60).emod 60) ++
    ':' :: pad2Chars (s.emod 60)

/-- The characters of `new Date(t).toISOString()`:
`YYYY-MM-DDTHH:mm:ss.sssZ` for `t` in milliseconds since the epoch. -/
def isoChars (t : Int) : List Char :=
  secondsChars (t.ediv 1000) ++ '.' :: (pad3Chars (t.emod 1000) ++ ['Z'])

/-- `.replace(/[:.]/g, '-')` applied character by character. -/
def sanitizeChar (c : Char) : Char :=
  if c = ':' ∨ c = '.' then '-' else c

/-- The timestamp slug of `createBackup`:
`toISOString().replace(/[:.]/g, '-').slice(0, -5)`. -/
def timestampSlugChars (t : Int) : List Char :=
  let m := (isoChars t).map sanitizeChar
  m.take (m.length - 5)

/-- `` fileName = `backup-${timestamp}.sql.gz` ``. -/
def fileNameOf (t : Int) : String :=
  "backup-" ++ String.mk (timestampSlugChars t) ++ ".sql.gz"

/-- `` s3Key = `${type.toLowerCase()}/${fileName}` ``. -/
def s3KeyOf (ty : BackupType) (t : Int) : String :=
  ty.toLower ++ "/" ++ fileNameOf t

/-- `DatabaseService.backupDir`. -/
def backupDir : String := "/tmp/backups"

/-- `path.join(this.backupDir, fileName)` for the dump's local file. -/
def localPathOf (fileName : String) : String :=
  backupDir ++ "/" ++ fileName

/-! ### The service methods -/

/-- `BackupService.createBackup(type)`.

`now` is the `new Date()` taken at entry (it stamps the file name and
`startedAt`), `endTime` the `new Date()` taken when the attempt finishes
(it stamps `completedAt`), `freshId` the id Prisma assigns to the new row,
`dump` the outcome of `DatabaseService.createBackup`, `upload` the outcome
of `S3Service.uploadFile`.

The method always inserts a new `IN_PROGRESS` row first. On a dump failure
`DatabaseService` itself unlinks its partial file and throws
`Database backup failed: …`, so no local file is left and the row is marked
`FAILED`. On an upload failure `S3Service` throws `S3 upload failed: …` and
the catch block marks the row `FAILED`: the local dump file is only removed
in step 3 of the success path, so it stays behind. On success the key is
stored, the local file removed, and the row marked `COMPLETED`. -/
def createBackup (ty : BackupType) (freshId : Nat) (now endTime : Int)
    (dump : DumpOutcome) (upload : CallOutcome) (st : SysState) :
    SysState × Except BackupError BackupLog :=
  let fileName := fileNameOf now
  let s3Key := s3KeyOf ty now
  let row : BackupLog :=
    { id := freshId, fileName := fileName, s3Key := s3Key, type := ty,
      status := .IN_PROGRESS, size := none, errorMessage := none,
      startedAt := now, completedAt := none }
  let st1 : SysState := { st with ledger := st.ledger ++ [row] }
  match dump with
  | .fail msg =>
      let err := "Database backup failed: " ++ msg
      let st2 := { st1 with ledger := updateLog st1.ledger freshId (fun b =>
        { b with status := .FAILED, errorMessage := some err, completedAt := some endTime }) }
      (st2, .error (.executorError err))
  | .ok size =>
      let filePath := localPathOf fileName
      let stDumped := { st1 with localFiles := st1.localFiles ++ [filePath] }
      match upload with
      | .fail msg =>
          let err := "S3 upload failed: " ++ msg
          let st2 := { stDumped with ledger := updateLog stDumped.ledger freshId (fun b =>
            { b with status := .FAILED, errorMessage := some err, completedAt := some endTime }) }
          (st2, .error (.storageError err))
      | .ok =>
          let stUp := { stDumped with storage := stDumped.storage ++ [s3Key] }
          let stClean := { stUp with localFiles := stUp.localFiles.erase filePath }
          let final := { stClean with ledger := updateLog stClean.ledger freshId (fun b =>
            { b with status := .COMPLETED, size := some size, completedAt := some endTime }) }
          match lookupLog final.ledger freshId with
          | some b => (final, .ok b)
          | none => (final, .error (.notFound freshId))

/-- `BackupService.deleteBackup(id)`.

`s3del` is the outcome of `S3Service.deleteFile`, consulted only when the
row's status is `COMPLETED`; every other status skips the storage call and
the row is marked `DELETED` unconditionally. -/
def deleteBackup (id : Nat) (s3del : CallOutcome) (st : SysState) :
    SysState × Except BackupError Unit :=
  match lookupLog st.ledger id with
  | none => (st, .error (.notFound id))
  | some b =>
    if b.status = .COMPLETED then
      match s3del with
      | .fail msg => (st, .error (.storageError ("S3 delete failed: " ++ msg)))
      | .ok =>
          let st1 := { st with storage := st.storage.erase b.s3Key }
          let marked := updateLog st1.ledger id (fun r => { r with status := .DELETED })
          ({ st1 with ledger := marked }, .ok ())
    else
      let marked := updateLog st.ledger id (fun r => { r with status := .DELETED })
      ({ st with ledger := marked }, .ok ())

/-- `BackupService.restoreBackup(id)`.

`download` is the outcome of `S3Service.downloadFile`, `restoreOp` the
outcome of `DatabaseService.restoreBackup`. A missing row throws
`NotFoundException`; a non-`COMPLETED` row throws
`Cannot restore from backup with status: …`. On a successful download the
file appears at `/tmp/backups/restore-${fileName}`; the
`deleteLocalBackup` call runs only after a successful restore, so a failed
restore leaves the downloaded file behind. No branch touches the ledger. -/
def restoreBackup (id : Nat) (download restoreOp : CallOutcome) (st : SysState) :
    SysState × Except BackupError Unit :=
  match lookupLog st.ledger id with
  | none => (st, .error (.notFound id))
  | some b =>
    if b.status = .COMPLETED then
      let localPath := backupDir ++ "/restore-" ++ b.fileName
      match download with
      | .fail msg => (st, .error (.storageError ("S3 download failed: " ++ msg)))
      | .ok =>
        let st1 := { st with localFiles := st.localFiles ++ [localPath] }
        match restoreOp with
        | .fail msg => (st1, .error (.executorError ("Database restore failed: " ++ msg)))
        | .ok =>
          let st2 := { st1 with localFiles := st1.localFiles.erase localPath }
          (st2, .ok ())
    else
      (st, .error (.invalidState ("Cannot restore from backup with status: " ++ b.status.toName)))

/-- Milliseconds in a day, for the cutoff arithmetic of
`cutoffDate.setDate(cutoffDate.getDate() - retentionDays)`. -/
def msPerDay : Int := 86400000

/-- The cutoff date of `cleanupOldBackups`. -/
def cutoffOf (now : Int) (retentionDays : Nat) : Int :=
  now - retentionDays * msPerDay

/-- The `findMany` selection of `cleanupOldBackups`: rows of the given
type, `status == COMPLETED`, `startedAt < cutoffDate` (strict). -/
def cleanupSelection (ty : BackupType) (retentionDays : Nat) (now : Int)
    (ledger : List BackupLog) : List BackupLog :=
  ledger.filter (fun b =>
    b.type == ty && b.status == .COMPLETED && decide (b.startedAt < cutoffOf now retentionDays))

/-- The deletion loop of `cleanupOldBackups`: call `deleteBackup` for each
selected row, count a success, log and continue past a failure. `outcomes`
gives each row's `S3Service.deleteFile` outcome, keyed by row id. -/
def cleanupLoop (outcomes : Nat → CallOutcome) (st : SysState) :
    List BackupLog → SysState × Nat
  | [] => (st, 0)
  | b :: rest =>
    let step := deleteBackup b.id (outcomes b.id) st
    let next := cleanupLoop outcomes step.1 rest
    match step.2 with
    | .ok _ => (next.1, next.2 + 1)
    | .error _ => next

/-- `BackupService.cleanupOldBackups(type, retentionDays)`: select the
expired rows, delete each in turn, and return the count of successful
deletions. The return type carries no `Except`: the loop swallows every
deletion failure. -/
def cleanupOldBackups (ty : BackupType) (retentionDays : Nat) (now : Int)
    (outcomes : Nat → CallOutcome) (st : SysState) : SysState × Nat :=
  cleanupLoop outcomes st (cleanupSelection ty retentionDays now st.ledger)

/-! ### Helper lemmas about the ledger primitives -/

/-- A row appended after rows with other ids is found by its id. -/
theorem lookupLog_append_fresh (l : List BackupLog) (row : BackupLog) (i : Nat)
    (hrow : row.id = i) (h : ∀ b ∈ l, b.id ≠ i) : lookupLog (l ++ [row]) i = some row := by
  subst hrow
  unfold lookupLog
  rw [List.find?_append]
  have hnone : l.find? (fun b => b.id == row.id) = none := by
    rw [List.find?_eq_none]
    intro b hb
    simp [h b hb]
  rw [hnone]
  simp

/-- `updateLog` rewrites the looked-up row when the update keeps ids. -/
theorem lookupLog_updateLog_self (l : List BackupLog) (i : Nat) (f : BackupLog → BackupLog)
    (hf : ∀ r, (f r).id = r.id) :
    lookupLog (updateLog l i f) i = (lookupLog l i).map f := by
  induction l with
  | nil => rfl
  | cons b rest ih =>
    unfold lookupLog updateLog at *
    simp only [List.map_cons]
    by_cases hb : b.id = i
    · rw [List.find?_cons_of_pos (p := fun r : BackupLog => r.id == i) _ (by simp [hb, hf]),
        List.find?_cons_of_pos (p := fun r : BackupLog => r.id == i) _ (by simp [hb])]
      simp [hb]
    · rw [List.find?_cons_of_neg (p := fun r : BackupLog => r.id == i) _ (by simp [hb]),
        List.find?_cons_of_neg (p := fun r : BackupLog => r.id == i) _ (by simp [hb])]
      exact ih

/-- `updateLog` on one id leaves every other id's row unread. -/
theorem lookupLog_updateLog_ne (l : List BackupLog) (i j : Nat) (f : BackupLog → BackupLog)
    (hf : ∀ r, (f r).id = r.id) (hne : j ≠ i) :
    lookupLog (updateLog l i f) j = lookupLog l j := by
  induction l with
  | nil => rfl
  | cons b rest ih =>
    unfold lookupLog updateLog at *
    simp only [List.map_cons]
    by_cases hbj : b.id = j
    · have hbi : ¬ b.id = i := by omega
      rw [List.find?_cons_of_pos (p := fun r : BackupLog => r.id == j) _
          (by rw [if_neg (by simp [hbi])]; simp [hbj]),
        List.find?_cons_of_pos (p := fun r : BackupLog => r.id == j) _ (by simp [hbj])]
      simp [hbi]
    · have hneg : ¬ ((if (b.id == i) = true then f b else b).id == j) = true := by
        by_cases hbi : b.id = i <;> simp [hbi, hf, hbj]
        omega
      rw [List.find?_cons_of_neg (p := fun r : BackupLog => r.id == j) _ hneg,
        List.find?_cons_of_neg (p := fun r : BackupLog => r.id == j) _ (by simp [hbj])]
      exact ih

/-- `updateLog` never changes a count over a property the update preserves. -/
theorem countP_updateLog (l : List BackupLog) (i : Nat) (f : BackupLog → BackupLog)
    (p : BackupLog → Bool) (hf : ∀ r, p (f r) = p r) :
    (updateLog l i f).countP p = l.countP p := by
  induction l with
  | nil => rfl
  | cons b rest ih =>
    unfold updateLog at *
    by_cases hb : b.id = i
    · simp only [List.map_cons, List.countP_cons, hb, ih, hf, if_pos rfl, beq_self_eq_true,
        if_true]
    · have h1 : (b.id == i) = false := by simp [hb]
      simp only [List.map_cons, List.countP_cons, h1, ih]
      simp

/-! ### Concrete fixtures for scenario statements -/

/-- A ledger row with the given id, type, status and start instant. -/
def mkRec (i : Nat) (ty : BackupType) (s : BackupStatus) (t : Int) : BackupLog :=
  { id := i, fileName := "backup-x.sql.gz", s3Key := "k" ++ toString i, type := ty, status := s,
    size := none, errorMessage := none, startedAt := t, completedAt := none }

/-- The state before any backup was attempted. -/
def emptyState : SysState := { ledger := [], storage := [], localFiles := [] }

/-! ### Claims -/

/-- C2: the retention sweep selects exactly the rows of the swept type with
`status = COMPLETED` and `now - startedAt` strictly greater than
`retentionDays` days; concretely, at `retentionDays = 7` and `now = D` a
`COMPLETED` row started `D - 8` days ago is selected while rows started
`D - 6` days and exactly `D - 7` days ago are not. -/
theorem cleanupSelection_spec :
    (∀ (ledger : List BackupLog) (ty : BackupType) (r : Nat) (now : Int) (b : BackupLog),
      b ∈ cleanupSelection ty r now ledger ↔
        b ∈ ledger ∧ b.type = ty ∧ b.status = .COMPLETED ∧
          now - b.startedAt > (r : Int) * msPerDay) ∧
    cleanupSelection .DAILY 7 0
        [mkRec 0 .DAILY .COMPLETED (-8 * msPerDay), mkRec 1 .DAILY .COMPLETED (-6 * msPerDay),
         mkRec 2 .DAILY .COMPLETED (-7 * msPerDay)] =
      [mkRec 0 .DAILY .COMPLETED (-8 * msPerDay)] := by
  constructor
  · intro ledger ty r now b
    unfold cleanupSelection cutoffOf msPerDay
    rw [List.mem_filter]
    simp only [Bool.and_eq_true, beq_iff_eq, decide_eq_true_eq]
    constructor
    · rintro ⟨hmem, ⟨h1, h2⟩, h3⟩
      exact ⟨hmem, h1, h2, by omega⟩
    · rintro ⟨hmem, h1, h2, h3⟩
      exact ⟨hmem, ⟨h1, h2⟩, by omega⟩
  · decide

/-- C1 counterexample: with a `DAILY` row already `IN_PROGRESS`, a second
`createBackup(DAILY)` does not fail with any error and the ledger ends with
two `DAILY` rows — the code has no concurrency gate. -/
theorem createBackup_concurrent_creates_second_record :
    ((createBackup .DAILY 1 0 0 (.ok 5) .ok
        { ledger := [mkRec 0 .DAILY .IN_PROGRESS 0], storage := [],
          localFiles := [] }).1.ledger.countP (fun r => r.type == .DAILY)) = 2 ∧
    (createBackup .DAILY 1 0 0 (.ok 5) .ok
        { ledger := [mkRec 0 .DAILY .IN_PROGRESS 0], storage := [], localFiles := [] }).2 =
      .ok { id := 1, fileName := "backup-1970-01-01T00-00-00.sql.gz",
            s3Key := "daily/backup-1970-01-01T00-00-00.sql.gz", type := .DAILY,
            status := .COMPLETED, size := some 5, errorMessage := none,
            startedAt := 0, completedAt := some 0 } := by
  exact ⟨by decide, rfl⟩

/-- C1 amended: `createBackup` performs no per-type concurrency check —
even when the ledger holds a row of the same type in `IN_PROGRESS`, the
call still inserts a new row of that type (the count of rows of that type
always grows by one, whatever the dump and upload outcomes). -/
theorem createBackup_no_concurrency_gate (ty : BackupType) (freshId : Nat)
    (now endTime : Int) (dump : DumpOutcome) (upload : CallOutcome) (st : SysState)
    (b : BackupLog) (hb : b ∈ st.ledger) (hty : b.type = ty)
    (hst : b.status = .IN_PROGRESS) :
    (createBackup ty freshId now endTime dump upload st).1.ledger.countP
        (fun r => r.type == ty) =
      st.ledger.countP (fun r => r.type == ty) + 1 := by
  unfold createBackup
  cases dump with
  | fail msg =>
    dsimp only
    rw [countP_updateLog]
    · rw [List.countP_append]
      simp [List.countP_cons]
    · intro r
      rfl
  | ok size =>
    cases upload with
    | fail msg =>
      dsimp only
      rw [countP_updateLog]
      · rw [List.countP_append]
        simp [List.countP_cons]
      · intro r
        rfl
    | ok =>
      dsimp only
      split
      all_goals
        dsimp only
        rw [countP_updateLog]
        · rw [List.countP_append]
          simp [List.countP_cons]
        · intro r
          rfl

/-- C1 witness: the amended theorem applied at the concrete two-call
scenario of the claim. -/
theorem createBackup_no_concurrency_gate_witness :
    (createBackup .DAILY 1 0 0 (.ok 5) .ok
        { ledger := [mkRec 0 .DAILY .IN_PROGRESS 0], storage := [],
          localFiles := [] }).1.ledger.countP (fun r => r.type == .DAILY) =
      ({ ledger := [mkRec 0 .DAILY .IN_PROGRESS 0], storage := [],
         localFiles := [] } : SysState).ledger.countP (fun r => r.type == .DAILY) + 1 :=
  createBackup_no_concurrency_gate .DAILY 1 0 0 (.ok 5) .ok
    { ledger := [mkRec 0 .DAILY .IN_PROGRESS 0], storage := [], localFiles := [] }
    (mkRec 0 .DAILY .IN_PROGRESS 0) (by decide) rfl rfl

/-- C3: on a `COMPLETED` row, `deleteBackup` deletes the storage object
first and marks the row `DELETED` only when that delete succeeds; when the
storage delete fails, the state is unchanged (the row keeps its prior
status, the object stays) and the error propagates — both transition or
neither does. -/
theorem deleteBackup_completed_storage_first (st : SysState) (i : Nat) (b : BackupLog)
    (hb : lookupLog st.ledger i = some b) (hc : b.status = .COMPLETED) :
    (∀ msg, deleteBackup i (.fail msg) st =
      (st, .error (.storageError ("S3 delete failed: " ++ msg)))) ∧
    deleteBackup i .ok st =
      ({ st with storage := st.storage.erase b.s3Key,
                 ledger := updateLog st.ledger i (fun r => { r with status := .DELETED }) },
       .ok ()) := by
  unfold deleteBackup
  rw [hb]
  constructor
  · intro msg
    simp [hc]
  · simp [hc]

/-- C3 witness: the theorem applied to a one-row `COMPLETED` ledger whose
object is in storage. -/
theorem deleteBackup_completed_storage_first_witness :
    (∀ msg, deleteBackup 0 (.fail msg)
        { ledger := [mkRec 0 .DAILY .COMPLETED 0], storage := ["k0"], localFiles := [] } =
      ({ ledger := [mkRec 0 .DAILY .COMPLETED 0], storage := ["k0"], localFiles := [] },
       .error (.storageError ("S3 delete failed: " ++ msg)))) ∧
    deleteBackup 0 .ok
        { ledger := [mkRec 0 .DAILY .COMPLETED 0], storage := ["k0"], localFiles := [] } =
      ({ ledger := updateLog [mkRec 0 .DAILY .COMPLETED 0] 0
            (fun r => { r with status := .DELETED }),
         storage := (["k0"] : List String).erase (mkRec 0 .DAILY .COMPLETED 0).s3Key,
         localFiles := [] }, .ok ()) :=
  deleteBackup_completed_storage_first
    { ledger := [mkRec 0 .DAILY .COMPLETED 0], storage := ["k0"], localFiles := [] }
    0 (mkRec 0 .DAILY .COMPLETED 0) rfl rfl

/-- C5 counterexample: `deleteBackup` on an `IN_PROGRESS` row is not
rejected with any error — it returns success and the row is now `DELETED`,
contradicting the claimed `InvalidStateError` rejection with unchanged
status. -/
theorem deleteBackup_in_progress_not_rejected :
    deleteBackup 0 .ok
        { ledger := [mkRec 0 .DAILY .IN_PROGRESS 0], storage := [], localFiles := [] } =
      ({ ledger := [{ mkRec 0 .DAILY .IN_PROGRESS 0 with status := .DELETED }],
         storage := [], localFiles := [] }, .ok ()) := rfl

/-- C5 amended: `deleteBackup` on an `IN_PROGRESS` row is accepted: it
performs no storage call (the storage outcome is never consulted and the
bucket is untouched) and unconditionally marks the row `DELETED`. -/
theorem deleteBackup_in_progress_marks_deleted (st : SysState) (i : Nat) (b : BackupLog)
    (outcome : CallOutcome) (hb : lookupLog st.ledger i = some b)
    (hs : b.status = .IN_PROGRESS) :
    deleteBackup i outcome st =
      ({ st with ledger := updateLog st.ledger i (fun r => { r with status := .DELETED }) },
       .ok ()) := by
  unfold deleteBackup
  rw [hb]
  simp [hs]

/-- C5 witness: the amended theorem at a one-row `IN_PROGRESS` ledger with
a failing storage outcome (which the code never consults). -/
theorem deleteBackup_in_progress_marks_deleted_witness :
    deleteBackup 0 (.fail "unreachable")
        { ledger := [mkRec 0 .DAILY .IN_PROGRESS 0], storage := [], localFiles := [] } =
      ({ ledger := updateLog [mkRec 0 .DAILY .IN_PROGRESS 0] 0
            (fun r => { r with status := .DELETED }),
         storage := [], localFiles := [] }, .ok ()) :=
  deleteBackup_in_progress_marks_deleted
    { ledger := [mkRec 0 .DAILY .IN_PROGRESS 0], storage := [], localFiles := [] }
    0 (mkRec 0 .DAILY .IN_PROGRESS 0) (.fail "unreachable") rfl rfl

/-- C10: `deleteBackup` on a `FAILED` or already-`DELETED` row performs no
object-storage deletion at all (the bucket is untouched and the storage
outcome is never consulted) and unconditionally marks the row `DELETED`. -/
theorem deleteBackup_failed_or_deleted_skips_storage (st : SysState) (i : Nat) (b : BackupLog)
    (outcome : CallOutcome) (hb : lookupLog st.ledger i = some b)
    (hs : b.status = .FAILED ∨ b.status = .DELETED) :
    deleteBackup i outcome st =
      ({ st with ledger := updateLog st.ledger i (fun r => { r with status := .DELETED }) },
       .ok ()) := by
  unfold deleteBackup
  rw [hb]
  rcases hs with h | h <;> simp [h]

/-- C10 witness: the theorem at a one-row `FAILED` ledger with a failing
storage outcome (never consulted). -/
theorem deleteBackup_failed_or_deleted_skips_storage_witness :
    deleteBackup 0 (.fail "unreachable")
        { ledger := [mkRec 0 .DAILY .FAILED 0], storage := ["k0"], localFiles := [] } =
      ({ ledger := updateLog [mkRec 0 .DAILY .FAILED 0] 0
            (fun r => { r with status := .DELETED }),
         storage := ["k0"], localFiles := [] }, .ok ()) :=
  deleteBackup_failed_or_deleted_skips_storage
    { ledger := [mkRec 0 .DAILY .FAILED 0], storage := ["k0"], localFiles := [] }
    0 (mkRec 0 .DAILY .FAILED 0) (.fail "unreachable") rfl (Or.inl rfl)

/-- C6: no `restoreBackup` call — on any row, with any download and
restore outcomes — ever changes the ledger, and on an existing row whose
status is not `COMPLETED` it fails with the invalid-state error and leaves
the whole state unchanged. -/
theorem restoreBackup_non_completed_rejected (st : SysState) (i : Nat)
    (download restoreOp : CallOutcome) :
    ((restoreBackup i download restoreOp st).1.ledger = st.ledger) ∧
    (∀ b, lookupLog st.ledger i = some b → b.status ≠ .COMPLETED →
      restoreBackup i download restoreOp st =
        (st, .error (.invalidState
          ("Cannot restore from backup with status: " ++ b.status.toName)))) := by
  constructor
  · unfold restoreBackup
    cases h : lookupLog st.ledger i with
    | none => rfl
    | some b =>
      dsimp only
      by_cases hc : b.status = .COMPLETED
      · rw [if_pos hc]
        cases download with
        | ok =>
          cases restoreOp with
          | ok => rfl
          | fail msg => rfl
        | fail msg => rfl
      · rw [if_neg hc]
  · intro b hb hc
    unfold restoreBackup
    rw [hb]
    dsimp only
    rw [if_neg hc]

/-- C7 counterexample: restoring a `COMPLETED` row where the database
restore operation fails leaves the downloaded file
`/tmp/backups/restore-…` on disk — the local file is not removed on the
failure exit path. -/
theorem restoreFailure_leaves_local_file :
    (restoreBackup 0 .ok (.fail "disk full")
        { ledger := [mkRec 0 .DAILY .COMPLETED 0], storage := [],
          localFiles := [] }).1.localFiles = ["/tmp/backups/restore-backup-x.sql.gz"] ∧
    (restoreBackup 0 .ok (.fail "disk full")
        { ledger := [mkRec 0 .DAILY .COMPLETED 0], storage := [],
          localFiles := [] }).2 =
      .error (.executorError "Database restore failed: disk full") := ⟨rfl, rfl⟩

/-- C7 amended: in a restore of a `COMPLETED` row with a successful
download, the downloaded local file is removed only on the success exit
path; when the database restore fails, the file stays on disk and the
error propagates. -/
theorem restore_cleanup_only_on_success (st : SysState) (i : Nat) (b : BackupLog)
    (hb : lookupLog st.ledger i = some b) (hc : b.status = .COMPLETED)
    (hnew : (backupDir ++ "/restore-" ++ b.fileName) ∉ st.localFiles) :
    ((restoreBackup i .ok .ok st).1.localFiles = st.localFiles) ∧
    (∀ msg, (restoreBackup i .ok (.fail msg) st).1.localFiles =
      st.localFiles ++ [backupDir ++ "/restore-" ++ b.fileName]) := by
  unfold restoreBackup
  rw [hb]
  dsimp only
  constructor
  · rw [if_pos hc]
    dsimp only
    rw [List.erase_append_right _ hnew]
    simp
  · intro msg
    rw [if_pos hc]

/-- C7 witness: the amended theorem at a one-row `COMPLETED` ledger with
no local files. -/
theorem restore_cleanup_only_on_success_witness :
    ((restoreBackup 0 .ok .ok
        { ledger := [mkRec 0 .DAILY .COMPLETED 0], storage := [],
          localFiles := [] }).1.localFiles =
      ({ ledger := [mkRec 0 .DAILY .COMPLETED 0], storage := [],
         localFiles := [] } : SysState).localFiles) ∧
    (∀ msg, (restoreBackup 0 .ok (.fail msg)
        { ledger := [mkRec 0 .DAILY .COMPLETED 0], storage := [],
          localFiles := [] }).1.localFiles =
      ({ ledger := [mkRec 0 .DAILY .COMPLETED 0], storage := [],
         localFiles := [] } : SysState).localFiles ++
        [backupDir ++ "/restore-" ++ (mkRec 0 .DAILY .COMPLETED 0).fileName]) :=
  restore_cleanup_only_on_success
    { ledger := [mkRec 0 .DAILY .COMPLETED 0], storage := [], localFiles := [] }
    0 (mkRec 0 .DAILY .COMPLETED 0) rfl rfl (by decide)

/-- C4 counterexample: dump succeeds, upload fails — the row ends `FAILED`
with an error message and `completedAt` set, but the local dump file is
still present in `/tmp/backups` when the attempt finishes: the removal
step runs only on the success path. -/
theorem uploadFailure_leaves_local_file :
    (createBackup .MANUAL 0 0 0 (.ok 5) (.fail "boom") emptyState).1.localFiles =
      ["/tmp/backups/backup-1970-01-01T00-00-00.sql.gz"] ∧
    (createBackup .MANUAL 0 0 0 (.ok 5) (.fail "boom") emptyState).1.ledger =
      [{ id := 0, fileName := "backup-1970-01-01T00-00-00.sql.gz",
         s3Key := "manual/backup-1970-01-01T00-00-00.sql.gz", type := .MANUAL,
         status := .FAILED, size := none, errorMessage := some "S3 upload failed: boom",
         startedAt := 0, completedAt := some 0 }] := ⟨rfl, rfl⟩

/-- C4 amended: when the dump succeeds and the upload fails, the row ends
`FAILED` with a non-empty `errorMessage` and `completedAt` set and the
error propagates, but the local temporary dump file is NOT removed — it
remains in the local directory when the attempt finishes. -/
theorem uploadFailure_marks_failed_keeps_file (ty : BackupType) (freshId : Nat)
    (now endTime : Int) (size : Int) (msg : String) (st : SysState)
    (hfresh : ∀ b ∈ st.ledger, b.id ≠ freshId) :
    lookupLog (createBackup ty freshId now endTime (.ok size) (.fail msg) st).1.ledger
        freshId =
      some { id := freshId, fileName := fileNameOf now, s3Key := s3KeyOf ty now, type := ty,
             status := .FAILED, size := none,
             errorMessage := some ("S3 upload failed: " ++ msg),
             startedAt := now, completedAt := some endTime } ∧
    localPathOf (fileNameOf now) ∈
      (createBackup ty freshId now endTime (.ok size) (.fail msg) st).1.localFiles ∧
    (createBackup ty freshId now endTime (.ok size) (.fail msg) st).2 =
      .error (.storageError ("S3 upload failed: " ++ msg)) ∧
    ("S3 upload failed: " ++ msg) ≠ "" := by
  refine ⟨?_, ?_, rfl, ?_⟩
  · unfold createBackup
    dsimp only
    rw [lookupLog_updateLog_self]
    · rw [lookupLog_append_fresh st.ledger _ freshId rfl hfresh]
      rfl
    · intro r
      rfl
  · unfold createBackup
    dsimp only
    simp
  · intro h
    have h2 := congrArg String.length h
    simp [String.length_append] at h2
    exact absurd h2.1 (by decide)

/-- C4 witness: the amended theorem at the empty initial state. -/
theorem uploadFailure_marks_failed_keeps_file_witness :
    lookupLog (createBackup .MANUAL 0 0 0 (.ok 5) (.fail "boom") emptyState).1.ledger 0 =
      some { id := 0, fileName := fileNameOf 0, s3Key := s3KeyOf .MANUAL 0, type := .MANUAL,
             status := .FAILED, size := none,
             errorMessage := some ("S3 upload failed: " ++ "boom"),
             startedAt := 0, completedAt := some 0 } ∧
    localPathOf (fileNameOf 0) ∈
      (createBackup .MANUAL 0 0 0 (.ok 5) (.fail "boom") emptyState).1.localFiles ∧
    (createBackup .MANUAL 0 0 0 (.ok 5) (.fail "boom") emptyState).2 =
      .error (.storageError ("S3 upload failed: " ++ "boom")) ∧
    ("S3 upload failed: " ++ "boom") ≠ "" :=
  uploadFailure_marks_failed_keeps_file .MANUAL 0 0 0 5 "boom" emptyState
    (by intro b hb; cases hb)

/-- `slice(0, -5)` cuts exactly the sanitized `.sssZ` tail: the slug is
the sanitized seconds part of the ISO string. -/
theorem timestampSlugChars_eq (t : Int) :
    timestampSlugChars t = (secondsChars (t.ediv 1000)).map sanitizeChar := by
  unfold timestampSlugChars isoChars
  dsimp only
  rw [List.map_append]
  set A := (secondsChars (t.ediv 1000)).map sanitizeChar with hA
  set B := ('.' :: (pad3Chars (t.emod 1000) ++ ['Z'])).map sanitizeChar with hB
  have hBlen : B.length = 5 := by
    rw [hB]
    simp [pad3Chars]
  rw [List.length_append, hBlen, Nat.add_sub_cancel]
  exact List.take_left A B

/-- C8 counterexample: two actual `createBackup(DAILY)` runs started 500 ms
apart (same wall-clock second) leave two distinct ledger rows (ids 0 and 1)
carrying the same `storageKey` — `storageKey` is not globally unique. -/
theorem storageKey_collision_same_second :
    ((createBackup .DAILY 1 500 500 (.ok 1) .ok
        (createBackup .DAILY 0 0 0 (.ok 1) .ok emptyState).1).1.ledger.map
      (fun b => (b.id, b.s3Key))) =
      [(0, "daily/backup-1970-01-01T00-00-00.sql.gz"),
       (1, "daily/backup-1970-01-01T00-00-00.sql.gz")] := rfl

/-- C8 amended: `storageKey` is deterministic in the type and the creation
timestamp truncated to whole seconds only — any two creations of the same
type within the same second receive identical keys, so key uniqueness
holds only between creations whose truncated timestamps differ. -/
theorem storageKey_depends_on_second (ty : BackupType) (t1 t2 : Int)
    (h : t1.ediv 1000 = t2.ediv 1000) : s3KeyOf ty t1 = s3KeyOf ty t2 := by
  unfold s3KeyOf fileNameOf
  rw [timestampSlugChars_eq, timestampSlugChars_eq, h]

/-- C8 witness: 0 ms and 500 ms fall in the same second and get the same
key. -/
theorem storageKey_depends_on_second_witness :
    (Int.ediv 0 1000 = Int.ediv 500 1000) ∧ s3KeyOf .DAILY 0 = s3KeyOf .DAILY 500 :=
  ⟨by decide, storageKey_depends_on_second .DAILY 0 500 (by decide)⟩

/-- One `deleteBackup` step on a `COMPLETED` row, as an equation. -/
theorem deleteBackup_completed_eq (st : SysState) (i : Nat) (b : BackupLog)
    (hb : lookupLog st.ledger i = some b) (hc : b.status = .COMPLETED)
    (outcome : CallOutcome) :
    deleteBackup i outcome st =
      match outcome with
      | .ok =>
          ({ st with storage := st.storage.erase b.s3Key,
                     ledger := updateLog st.ledger i
                       (fun r => { r with status := .DELETED }) }, .ok ())
      | .fail msg => (st, .error (.storageError ("S3 delete failed: " ++ msg))) := by
  unfold deleteBackup
  rw [hb]
  dsimp only
  rw [if_pos hc]
  cases outcome <;> rfl

/-- `deleteBackup` leaves rows of other ids unchanged. -/
theorem deleteBackup_preserves_other (i j : Nat) (outcome : CallOutcome) (st : SysState)
    (hne : j ≠ i) :
    lookupLog (deleteBackup i outcome st).1.ledger j = lookupLog st.ledger j := by
  unfold deleteBackup
  cases h : lookupLog st.ledger i with
  | none => rfl
  | some b =>
    dsimp only
    by_cases hc : b.status = .COMPLETED
    · rw [if_pos hc]
      cases outcome with
      | ok =>
        dsimp only
        rw [lookupLog_updateLog_ne]
        · intro r
          rfl
        · exact hne
      | fail msg => rfl
    · rw [if_neg hc]
      dsimp only
      rw [lookupLog_updateLog_ne]
      · intro r
        rfl
      · exact hne

/-- In a ledger with pairwise-distinct ids, every row is found by its id. -/
theorem lookupLog_of_mem (l : List BackupLog) (hn : (l.map (fun b => b.id)).Nodup)
    (b : BackupLog) (hb : b ∈ l) : lookupLog l b.id = some b := by
  induction l with
  | nil => cases hb
  | cons a rest ih =>
    rw [List.map_cons, List.nodup_cons] at hn
    obtain ⟨ha, hrest⟩ := hn
    unfold lookupLog at *
    cases hb with
    | head => rw [List.find?_cons_of_pos (p := fun r : BackupLog => r.id == b.id) _ (by simp)]
    | tail _ hbm =>
      have hne : ¬ (a.id == b.id) = true := by
        simp only [beq_iff_eq]
        intro he
        exact ha (he ▸ List.mem_map_of_mem _ hbm)
      rw [List.find?_cons_of_neg (p := fun r : BackupLog => r.id == b.id) _ hne]
      exact ih hrest hbm

/-- The one-step equation of the cleanup loop. -/
theorem cleanupLoop_cons (outcomes : Nat → CallOutcome) (st : SysState) (b : BackupLog)
    (rest : List BackupLog) :
    cleanupLoop outcomes st (b :: rest) =
      match (deleteBackup b.id (outcomes b.id) st).2 with
      | .ok _ =>
          ((cleanupLoop outcomes (deleteBackup b.id (outcomes b.id) st).1 rest).1,
           (cleanupLoop outcomes (deleteBackup b.id (outcomes b.id) st).1 rest).2 + 1)
      | .error _ => cleanupLoop outcomes (deleteBackup b.id (outcomes b.id) st).1 rest := rfl

/-- The cleanup loop never touches rows whose id is outside the selection. -/
theorem cleanupLoop_preserves_other (outcomes : Nat → CallOutcome) (sel : List BackupLog) :
    ∀ (st : SysState) (j : Nat), (∀ b ∈ sel, b.id ≠ j) →
      lookupLog (cleanupLoop outcomes st sel).1.ledger j = lookupLog st.ledger j := by
  induction sel with
  | nil =>
    intro st j h
    rfl
  | cons b rest ih =>
    intro st j h
    have h1 : (cleanupLoop outcomes st (b :: rest)).1 =
        (cleanupLoop outcomes (deleteBackup b.id (outcomes b.id) st).1 rest).1 := by
      rw [cleanupLoop_cons]
      cases (deleteBackup b.id (outcomes b.id) st).2 <;> rfl
    rw [h1, ih _ j (fun c hcm => h c (List.mem_cons_of_mem b hcm)),
      deleteBackup_preserves_other b.id j (outcomes b.id) st
        (fun hji => h b (List.mem_cons_self b rest) hji.symm)]

/-- The cleanup loop visits every selected row: it returns the number of
rows whose storage delete succeeded and marks exactly those `DELETED`,
regardless of failures in between. -/
theorem cleanupLoop_spec (outcomes : Nat → CallOutcome) (sel : List BackupLog) :
    ∀ (st : SysState),
      (∀ b ∈ sel, lookupLog st.ledger b.id = some b ∧ b.status = .COMPLETED) →
      (sel.map (fun b => b.id)).Nodup →
      (cleanupLoop outcomes st sel).2 =
          (sel.filter (fun b => outcomes b.id == .ok)).length ∧
      (∀ b ∈ sel, outcomes b.id = .ok →
        lookupLog (cleanupLoop outcomes st sel).1.ledger b.id =
          some { b with status := .DELETED }) := by
  induction sel with
  | nil =>
    intro st h hn
    exact ⟨rfl, fun b hb => absurd hb (List.not_mem_nil b)⟩
  | cons b rest ih =>
    intro st h hn
    obtain ⟨hb, hc⟩ := h b (List.mem_cons_self b rest)
    have hrest := fun c hcm => h c (List.mem_cons_of_mem b hcm)
    rw [List.map_cons, List.nodup_cons] at hn
    obtain ⟨hbid, hnrest⟩ := hn
    have hner : ∀ c ∈ rest, c.id ≠ b.id := by
      intro c hcm he
      exact hbid (he ▸ List.mem_map_of_mem _ hcm)
    cases ho : outcomes b.id with
    | ok =>
      have hstep := deleteBackup_completed_eq st b.id b hb hc .ok
      have hok : (deleteBackup b.id (outcomes b.id) st).2 = .ok () := by
        rw [ho, hstep]
      have hst1 : (deleteBackup b.id (outcomes b.id) st).1.ledger =
          updateLog st.ledger b.id (fun r => { r with status := .DELETED }) := by
        rw [ho, hstep]
      have hloop : cleanupLoop outcomes st (b :: rest) =
          ((cleanupLoop outcomes (deleteBackup b.id (outcomes b.id) st).1 rest).1,
           (cleanupLoop outcomes (deleteBackup b.id (outcomes b.id) st).1 rest).2 + 1) := by
        rw [cleanupLoop_cons, hok]
      have hrest' : ∀ c ∈ rest,
          lookupLog (deleteBackup b.id (outcomes b.id) st).1.ledger c.id = some c ∧
            c.status = .COMPLETED := by
        intro c hcm
        obtain ⟨hcl, hcs⟩ := hrest c hcm
        refine ⟨?_, hcs⟩
        rw [hst1, lookupLog_updateLog_ne]
        · exact hcl
        · intro r
          rfl
        · exact hner c hcm
      obtain ⟨ihcount, ihmark⟩ := ih _ hrest' hnrest
      constructor
      · rw [hloop]
        dsimp only
        rw [ihcount, List.filter_cons, ho]
        simp
      · intro c hcm hco
        rcases List.mem_cons.mp hcm with hceq | hcm'
        · subst hceq
          rw [hloop]
          dsimp only
          rw [cleanupLoop_preserves_other outcomes rest _ c.id hner, hst1,
            lookupLog_updateLog_self]
          · rw [hb]
            rfl
          · intro r
            rfl
        · rw [hloop]
          dsimp only
          exact ihmark c hcm' hco
    | fail m =>
      have hstep := deleteBackup_completed_eq st b.id b hb hc (.fail m)
      have hfail : deleteBackup b.id (outcomes b.id) st =
          (st, .error (.storageError ("S3 delete failed: " ++ m))) := by
        rw [ho, hstep]
      have hloop : cleanupLoop outcomes st (b :: rest) = cleanupLoop outcomes st rest := by
        rw [cleanupLoop_cons, hfail]
      obtain ⟨ihcount, ihmark⟩ := ih st hrest hnrest
      constructor
      · rw [hloop, ihcount, List.filter_cons, ho]
        simp
      · intro c hcm hco
        rcases List.mem_cons.mp hcm with hceq | hcm'
        · subst hceq
          rw [ho] at hco
          cases hco
        · rw [hloop]
          exact ihmark c hcm' hco

/-- C9: a retention sweep never throws (its type returns a plain count),
visits every expired row even after an earlier deletion failed, returns
the number of successfully deleted rows, and actually marks exactly the
successfully deleted rows `DELETED`. -/
theorem cleanupOldBackups_continues_past_failures (ty : BackupType) (r : Nat) (now : Int)
    (outcomes : Nat → CallOutcome) (st : SysState)
    (hnodup : (st.ledger.map (fun b => b.id)).Nodup) :
    (cleanupOldBackups ty r now outcomes st).2 =
      ((cleanupSelection ty r now st.ledger).filter
        (fun b => outcomes b.id == .ok)).length ∧
    (∀ b ∈ cleanupSelection ty r now st.ledger, outcomes b.id = .ok →
      lookupLog (cleanupOldBackups ty r now outcomes st).1.ledger b.id =
        some { b with status := .DELETED }) := by
  unfold cleanupOldBackups
  apply cleanupLoop_spec
  · intro b hbm
    obtain ⟨hbl, hp⟩ := List.mem_filter.mp hbm
    simp only [Bool.and_eq_true, beq_iff_eq, decide_eq_true_eq] at hp
    exact ⟨lookupLog_of_mem st.ledger hnodup b hbl, hp.1.2⟩
  · exact List.Nodup.sublist
      ((List.filter_sublist st.ledger).map (fun b => b.id)) hnodup

/-- C9 witness: a sweep over two expired `DAILY` rows where the first
row's storage delete fails and the second succeeds — the sweep still
returns and counts the one success. -/
theorem cleanupOldBackups_continues_past_failures_witness :
    (cleanupOldBackups .DAILY 7 0 (fun i => if i == 0 then .fail "s3 down" else .ok)
        { ledger := [mkRec 0 .DAILY .COMPLETED (-8 * msPerDay),
                     mkRec 1 .DAILY .COMPLETED (-9 * msPerDay)],
          storage := ["k0", "k1"], localFiles := [] }).2 =
      ((cleanupSelection .DAILY 7 0
          ({ ledger := [mkRec 0 .DAILY .COMPLETED (-8 * msPerDay),
                        mkRec 1 .DAILY .COMPLETED (-9 * msPerDay)],
             storage := ["k0", "k1"], localFiles := [] } : SysState).ledger).filter
        (fun b => (fun i => if i == 0 then CallOutcome.fail "s3 down" else .ok) b.id ==
          .ok)).length ∧
    (∀ b ∈ cleanupSelection .DAILY 7 0
        ({ ledger := [mkRec 0 .DAILY .COMPLETED (-8 * msPerDay),
                      mkRec 1 .DAILY .COMPLETED (-9 * msPerDay)],
           storage := ["k0", "k1"], localFiles := [] } : SysState).ledger,
      (fun i => if i == 0 then CallOutcome.fail "s3 down" else .ok) b.id = .ok →
      lookupLog (cleanupOldBackups .DAILY 7 0
          (fun i => if i == 0 then .fail "s3 down" else .ok)
          { ledger := [mkRec 0 .DAILY .COMPLETED (-8 * msPerDay),
                       mkRec 1 .DAILY .COMPLETED (-9 * msPerDay)],
            storage := ["k0", "k1"], localFiles := [] }).1.ledger b.id =
        some { b with status := .DELETED }) :=
  cleanupOldBackups_continues_past_failures .DAILY 7 0
    (fun i => if i == 0 then .fail "s3 down" else .ok)
    { ledger := [mkRec 0 .DAILY .COMPLETED (-8 * msPerDay),
                 mkRec 1 .DAILY .COMPLETED (-9 * msPerDay)],
      storage := ["k0", "k1"], localFiles := [] }
    (by decide)
